import Mathlib

/- Verification of the bevy_puppeteer kinematic character controller.

   The development shallowly embeds the collide-and-slide motion solver
   (src/src/puppet.rs, duplicated in src/src/lib.rs), the grounding
   detector (check_if_grounded), and the jump/gravity state machine
   (src/src/puppeteer.rs).  f32 scalars are modelled as exact reals;
   std::time::Duration values are modelled as rationals (seconds).
   The external avian3d shape-cast provider is modelled as an abstract
   oracle parameter: the code only observes its Option result, so every
   theorem below quantifies over (or instantiates) the oracle. -/

noncomputable section

/-- Model of glam's Vec3 (f32 components modelled as exact reals). -/
@[ext]
structure Vec3 where
  x : ℝ
  y : ℝ
  z : ℝ

namespace Vec3

/-- Vec3::ZERO. -/
def zero : Vec3 := ⟨0, 0, 0⟩

/-- Vec3::Y. -/
def Yunit : Vec3 := ⟨0, 1, 0⟩

/-- Componentwise addition. -/
def add (a b : Vec3) : Vec3 := ⟨a.x + b.x, a.y + b.y, a.z + b.z⟩

/-- Componentwise subtraction. -/
def sub (a b : Vec3) : Vec3 := ⟨a.x - b.x, a.y - b.y, a.z - b.z⟩

/-- Componentwise negation. -/
def neg (a : Vec3) : Vec3 := ⟨-a.x, -a.y, -a.z⟩

/-- Multiplication of a vector by an f32 scalar (glam's Vec3 * f32). -/
def smul (a : Vec3) (c : ℝ) : Vec3 := ⟨a.x * c, a.y * c, a.z * c⟩

/-- Dot product. -/
def dot (a b : Vec3) : ℝ := a.x * b.x + a.y * b.y + a.z * b.z

/-- glam's length_squared. -/
def len2 (a : Vec3) : ℝ := a.dot a

/-- glam's length: sqrt of the squared length. -/
def length (a : Vec3) : ℝ := Real.sqrt a.len2

/-- glam's normalize_or_zero: the unit vector along a, or zero for a
    degenerate (zero-length) input. -/
def normalizeOrZero (a : Vec3) : Vec3 :=
  if a.length = 0 then zero else a.smul a.length⁻¹

lemma len2_nonneg (a : Vec3) : 0 ≤ a.len2 := by
  unfold len2 dot
  nlinarith [sq_nonneg a.x, sq_nonneg a.y, sq_nonneg a.z]

lemma length_nonneg (a : Vec3) : 0 ≤ a.length := Real.sqrt_nonneg _

lemma len2_eq_zero_iff (a : Vec3) : a.len2 = 0 ↔ a = zero := by
  unfold len2 dot zero
  constructor
  · intro h
    have hx : a.x = 0 := by nlinarith [sq_nonneg a.x, sq_nonneg a.y, sq_nonneg a.z]
    have hy : a.y = 0 := by nlinarith [sq_nonneg a.x, sq_nonneg a.y, sq_nonneg a.z]
    have hz : a.z = 0 := by nlinarith [sq_nonneg a.x, sq_nonneg a.y, sq_nonneg a.z]
    ext <;> simp [hx, hy, hz]
  · intro h
    rw [h]; ring

lemma length_eq_zero_iff (a : Vec3) : a.length = 0 ↔ a = zero := by
  unfold length
  rw [Real.sqrt_eq_zero']
  constructor
  · intro h; exact (len2_eq_zero_iff a).mp (le_antisymm h (len2_nonneg a))
  · intro h; exact le_of_eq ((len2_eq_zero_iff a).mpr h)

lemma length_pos_of_ne_zero {a : Vec3} (h : a ≠ zero) : 0 < a.length := by
  rcases lt_or_eq_of_le (length_nonneg a) with h' | h'
  · exact h'
  · exact absurd ((length_eq_zero_iff a).mp h'.symm) h

lemma dot_smul_left (a : Vec3) (c : ℝ) (b : Vec3) :
    (a.smul c).dot b = c * a.dot b := by
  unfold smul dot; ring

lemma len2_smul (a : Vec3) (c : ℝ) : (a.smul c).len2 = c ^ 2 * a.len2 := by
  unfold smul len2 dot; ring

lemma length_smul (a : Vec3) (c : ℝ) : (a.smul c).length = |c| * a.length := by
  unfold length
  rw [len2_smul, Real.sqrt_mul (sq_nonneg c), Real.sqrt_sq_eq_abs]

lemma length_normalizeOrZero {a : Vec3} (h : a ≠ zero) :
    a.normalizeOrZero.length = 1 := by
  have hl : a.length ≠ 0 := fun h0 => h ((length_eq_zero_iff a).mp h0)
  unfold normalizeOrZero
  rw [if_neg hl, length_smul, abs_inv,
      abs_of_nonneg (length_nonneg a), inv_mul_cancel₀ hl]

lemma length_single_x (a : ℝ) : (Vec3.mk a 0 0).length = |a| := by
  unfold length len2 dot
  rw [show a * a + 0 * 0 + 0 * 0 = a ^ 2 by ring, Real.sqrt_sq_eq_abs]

lemma length_single_y (a : ℝ) : (Vec3.mk 0 a 0).length = |a| := by
  unfold length len2 dot
  rw [show 0 * 0 + a * a + 0 * 0 = a ^ 2 by ring, Real.sqrt_sq_eq_abs]

lemma length_zero : (zero).length = 0 := by
  rw [length_eq_zero_iff]

lemma normalizeOrZero_single_x {a : ℝ} (h : 0 < a) :
    (Vec3.mk a 0 0).normalizeOrZero = Vec3.mk 1 0 0 := by
  unfold normalizeOrZero
  rw [length_single_x, abs_of_pos h, if_neg (ne_of_gt h)]
  unfold smul
  ext <;> simp [mul_inv_cancel₀ (ne_of_gt h)]

end Vec3

/-- Model of glam's Vec3::angle_between composed with f32::to_degrees, as
    used by the solver: acos of the clamped normalized dot product, scaled
    from radians to degrees. -/
def angleDeg (a b : Vec3) : ℝ :=
  Real.arccos (max (-1) (min 1 (a.dot b / Real.sqrt (a.len2 * b.len2)))) *
    (180 / Real.pi)

/-- When the dot product vanishes, the angle is 90 degrees (this covers a
    horizontal wall normal against world-up). -/
lemma angleDeg_eq_ninety {a b : Vec3} (h : a.dot b = 0) : angleDeg a b = 90 := by
  unfold angleDeg
  rw [h, zero_div]
  have h1 : min (1 : ℝ) 0 = 0 := by norm_num
  have h2 : max (-1 : ℝ) 0 = 0 := by norm_num
  rw [h1, h2, Real.arccos_zero]
  field_simp
  ring

/-- Vec3::Y against an exactly-up unit normal gives angle 0. -/
lemma angleDeg_Y_up : angleDeg Vec3.Yunit ⟨0, 1, 0⟩ = 0 := by
  unfold angleDeg Vec3.Yunit Vec3.len2 Vec3.dot
  norm_num

/-- f32::EPSILON (2 to the power -23), the threshold used by
    project_onto_plane for a degenerate plane normal. -/
def f32Epsilon : ℝ := 1 / 2 ^ 23

/-- Model of project_onto_plane (src/src/puppet.rs lines 283-295): if the
    plane normal is degenerate return the input unchanged, otherwise
    subtract the component of rhs along the plane normal. -/
def project_onto_plane (rhs plane : Vec3) : Vec3 :=
  if plane.dot plane < f32Epsilon then rhs
  else
    ⟨rhs.x - plane.x * (rhs.dot plane) / plane.dot plane,
     rhs.y - plane.y * (rhs.dot plane) / plane.dot plane,
     rhs.z - plane.z * (rhs.dot plane) / plane.dot plane⟩

/-- Model of project_and_scale (src/src/puppet.rs lines 297-299): project
    onto the plane, renormalize, and rescale by the input's length. -/
def project_and_scale (rhs plane : Vec3) : Vec3 :=
  (project_onto_plane rhs plane).normalizeOrZero.smul rhs.length

/-- avian3d's ShapeHitData, restricted to the fields the controller
    reads: the hit distance and the contact normal (normal1). -/
structure ShapeHit where
  distance : ℝ
  normal1 : Vec3

/-- Abstract shape-cast oracle standing for avian3d's
    SpatialQuery::cast_shape with the actor's collider and its own entity
    excluded.  Arguments: cast origin, the un-normalized cast vector v
    (the source normalizes v for the Dir3 direction and casts for maximum
    distance length(v) + extra), and the extra margin (the solver always
    passes skin_thickness there). -/
def SpatialCast : Type := Vec3 → Vec3 → ℝ → Option ShapeHit

/-- MAX_BOUNCES (src/src/lib.rs line 11). -/
def MAX_BOUNCES : ℕ := 5

/-- The Puppet component (src/src/puppet.rs lines 40-60), restricted to
    the fields the solver reads. -/
structure Puppet where
  skin_thickness : ℝ
  step_move_distance : ℝ
  step_height : ℝ
  max_slope_angle : ℝ
  target_position : Vec3

/-- The unclamped effective travel after a hit (src/src/puppet.rs line
    186): cast direction times (hit distance minus skin thickness). -/
def effectiveRaw (skin : ℝ) (vel : Vec3) (hit : ShapeHit) : Vec3 :=
  vel.normalizeOrZero.smul (hit.distance - skin)

/-- The remaining vector carried into the recursion (src/src/puppet.rs
    line 187): requested vector minus the unclamped effective travel. -/
def remainingAfterHit (skin : ℝ) (vel : Vec3) (hit : ShapeHit) : Vec3 :=
  vel.sub (effectiveRaw skin vel hit)

/-- The effective travel actually returned (src/src/puppet.rs lines
    190-192): zeroed when its length does not exceed the skin margin. -/
def effectiveClamped (skin : ℝ) (vel : Vec3) (hit : ShapeHit) : Vec3 :=
  if (effectiveRaw skin vel hit).length ≤ skin then Vec3.zero
  else effectiveRaw skin vel hit

/-- The initial_vel local of collide_and_slide (src/src/puppet.rs lines
    173-176). -/
def initialVel (p : Puppet) (gravityPass : Bool) : Vec3 :=
  if gravityPass then ⟨0, p.target_position.y, 0⟩ else p.target_position

/-- The wall slide scale factor (src/src/puppet.rs lines 203-207). -/
def wallScale (iv : Vec3) (hit : ShapeHit) : ℝ :=
  1 - Vec3.dot (Vec3.normalizeOrZero ⟨hit.normal1.x, 0, hit.normal1.z⟩)
        ((Vec3.normalizeOrZero ⟨iv.x, 0, iv.z⟩).neg)

/-- The initial step probe vector (src/src/puppet.rs line 212): the
    requested vector pushed away from the wall by step_move_distance. -/
def stepVel0 (p : Puppet) (vel : Vec3) (hit : ShapeHit) : Vec3 :=
  vel.add (hit.normal1.neg.smul p.step_move_distance)

/-- The effective step height after the upward ceiling cast
    (src/src/puppet.rs lines 211-224). -/
def stepHeight1 (cast : SpatialCast) (p : Puppet) (pos : Vec3) : ℝ :=
  match cast pos ⟨0, p.step_height, 0⟩ p.skin_thickness with
  | some sh => sh.distance - p.skin_thickness
  | none => p.step_height

/-- The step probe vector after the forward cast (src/src/puppet.rs lines
    226-236); note the source rescales along vel's direction. -/
def stepVel1 (cast : SpatialCast) (p : Puppet) (pos vel : Vec3) (hit : ShapeHit) : Vec3 :=
  match cast (pos.add ⟨0, stepHeight1 cast p pos, 0⟩) (stepVel0 p vel hit)
      p.skin_thickness with
  | some sh => vel.normalizeOrZero.smul (sh.distance - p.skin_thickness)
  | none => stepVel0 p vel hit

/-- The step probe vector after the sub-margin clamp (src/src/puppet.rs
    lines 237-239). -/
def stepVel2 (cast : SpatialCast) (p : Puppet) (pos vel : Vec3) (hit : ShapeHit) : Vec3 :=
  if (stepVel1 cast p pos vel hit).length ≤ p.skin_thickness then Vec3.zero
  else stepVel1 cast p pos vel hit

/-- The downward landing cast of the step probe (src/src/puppet.rs lines
    241-248), issued from the elevated and advanced position. -/
def stepDownCast (cast : SpatialCast) (p : Puppet) (pos vel : Vec3) (hit : ShapeHit) :
    Option ShapeHit :=
  cast ((pos.add (stepVel2 cast p pos vel hit)).add ⟨0, stepHeight1 cast p pos, 0⟩)
    ⟨0, -(stepHeight1 cast p pos), 0⟩ p.skin_thickness

/-- Outcome of the grounded step-up probe: the forward cast direction is
    built as Dir3::new(step_vel.normalize_or_zero()).unwrap(), which
    panics when the probe vector is zero; a successful probe returns the
    climb displacement; otherwise control falls through to wall sliding. -/
inductive StepOutcome where
  | panicked
  | noStep
  | stepped (r : Vec3)

/-- The grounded step-up probe block of collide_and_slide
    (src/src/puppet.rs lines 209-254). -/
def step_check (cast : SpatialCast) (p : Puppet) (pos vel : Vec3) (hit : ShapeHit) :
    StepOutcome :=
  if (stepVel0 p vel hit).length = 0 then .panicked
  else
    match stepDownCast cast p pos vel hit with
    | some sh =>
      if angleDeg Vec3.Yunit sh.normal1 ≤ p.max_slope_angle then
        .stepped (Vec3.add ⟨(stepVel2 cast p pos vel hit).x, 0, (stepVel2 cast p pos vel hit).z⟩
          ⟨0, stepHeight1 cast p pos - (sh.distance - p.skin_thickness), 0⟩)
      else .noStep
    | none => .noStep

/-- Model of collide_and_slide (src/src/puppet.rs lines 155-281, textually
    duplicated in src/src/lib.rs lines 145-271).  The result is an Option:
    none models a Rust panic (the Dir3 unwrap on a zero step probe
    vector), and the recursive tail propagates it as a panic unwinds. -/
def collide_and_slide (cast : SpatialCast) (p : Puppet) (grounded gravityPass : Bool)
    (pos vel : Vec3) (depth : ℕ) : Option Vec3 :=
  if vel.length = 0 then some Vec3.zero
  else if h : MAX_BOUNCES ≤ depth then some Vec3.zero
  else
    match cast pos vel p.skin_thickness with
    | none => some vel
    | some hit =>
      if angleDeg Vec3.Yunit hit.normal1 ≤ p.max_slope_angle then
        if gravityPass then some (effectiveClamped p.skin_thickness vel hit)
        else
          Option.map (fun r => (effectiveClamped p.skin_thickness vel hit).add r)
            (collide_and_slide cast p grounded gravityPass
              (pos.add (effectiveClamped p.skin_thickness vel hit))
              (project_and_scale (remainingAfterHit p.skin_thickness vel hit) hit.normal1)
              (depth + 1))
      else
        if grounded && !gravityPass then
          match step_check cast p pos vel hit with
          | .panicked => none
          | .stepped r => some r
          | .noStep =>
            Option.map (fun r => (effectiveClamped p.skin_thickness vel hit).add r)
              (collide_and_slide cast p grounded gravityPass
                (pos.add (effectiveClamped p.skin_thickness vel hit))
                ((project_and_scale
                    ⟨(remainingAfterHit p.skin_thickness vel hit).x, 0,
                      (remainingAfterHit p.skin_thickness vel hit).z⟩
                    ⟨hit.normal1.x, 0, hit.normal1.z⟩).smul
                  (wallScale (initialVel p gravityPass) hit))
                (depth + 1))
        else
          Option.map (fun r => (effectiveClamped p.skin_thickness vel hit).add r)
            (collide_and_slide cast p grounded gravityPass
              (pos.add (effectiveClamped p.skin_thickness vel hit))
              ((project_and_scale (remainingAfterHit p.skin_thickness vel hit)
                  hit.normal1).smul (wallScale (initialVel p gravityPass) hit))
              (depth + 1))
termination_by MAX_BOUNCES - depth
decreasing_by all_goals (simp only [MAX_BOUNCES] at *; omega)

/-- Abstract oracle for the grounding probe: the source casts the actor's
    collider from its translation along the fixed direction Dir3::NEG_Y,
    excluding the actor's own entity; the model's arguments are the cast
    origin and the maximum distance. -/
def GroundCast : Type := Vec3 → ℝ → Option ShapeHit

/-- Model of check_if_grounded (src/src/puppet.rs lines 88-110,
    duplicated in src/src/lib.rs lines 78-100) for one actor: returns the
    updated translation and whether the Grounded marker is present after
    the pass.  The downward cast distance is skin_thickness * 2, and a
    zero-distance hit nudges the translation up by skin_thickness. -/
def check_if_grounded (cast : GroundCast) (skin : ℝ) (translation : Vec3) :
    Vec3 × Bool :=
  match cast translation (skin * 2) with
  | some hit =>
    (if hit.distance = 0 then ⟨translation.x, translation.y + skin, translation.z⟩
     else translation, true)
  | none => (translation, false)

/-- The Puppeteer locomotion profile (src/src/puppeteer.rs lines 10-28),
    restricted to the fields the jump state machine reads.  Duration
    fields are modelled as rational seconds. -/
structure Puppeteer where
  downward_movement_multiplier : ℝ
  jump_cutoff : ℝ
  coyote_time : ℚ
  jump_buffer : ℚ

/-- The actor state as referenced by the systems in src/src/puppeteer.rs.
    The struct declaration carrying both fields is absent from src/ (the
    Puppet in src/src/puppet.rs has target_position but no
    gravity_velocity); the fields here are exactly the ones the functions
    movement and jumping dereference on their puppet binding. -/
structure PuppetState where
  target_position : Vec3
  gravity_velocity : ℝ

/-- Bevy's Timer in TimerMode::Once, restricted to what the controller
    uses: a duration, an accumulated elapsed time clamped at the
    duration, and the finished test. -/
structure BTimer where
  duration : ℚ
  elapsed : ℚ

/-- Timer::new: fresh timer with zero elapsed time. -/
def BTimer.new (d : ℚ) : BTimer := ⟨d, 0⟩

/-- Timer::tick for TimerMode::Once: advance, clamping at the duration. -/
def BTimer.tick (t : BTimer) (delta : ℚ) : BTimer :=
  ⟨t.duration, min (t.elapsed + delta) t.duration⟩

/-- Timer::finished: the elapsed time has reached the duration. -/
def BTimer.finished (t : BTimer) : Bool := t.duration ≤ t.elapsed

/-- The CoyoteTime timer inserted when the jump state machine grants a
    jump (src/src/puppeteer.rs lines 250-252): a timer of jump_buffer
    duration, ticked once by the coyote_time duration. -/
def coyote_seed_on_grant (p : Puppeteer) : BTimer :=
  (BTimer.new p.jump_buffer).tick p.coyote_time

/-- The gravity-multiplier recomputation at the end of the jumping system
    (src/src/puppeteer.rs lines 266-276).  Note the first branch tests
    target_position.y while the fast-fall branch tests gravity_velocity. -/
def gravity_multiplier_update (p : Puppeteer) (isJumping : Bool) (st : PuppetState) : ℝ :=
  if st.target_position.y > 0.01 then
    if isJumping then 1.0 else p.jump_cutoff
  else if st.gravity_velocity < -0.01 then p.downward_movement_multiplier
  else 1.0

/-- Oracle that reports a wall hit at distance 1/2 for every cast. -/
def castConstWallHalf : SpatialCast := fun _ _ _ => some ⟨1/2, ⟨1, 0, 0⟩⟩

/-- Oracle that reports a wall hit at distance 1/4 for every cast. -/
def castConstWallQuarter : SpatialCast := fun _ _ _ => some ⟨1/4, ⟨1, 0, 0⟩⟩

/-- Oracle that reports a hit at distance 1 with a horizontal normal. -/
def castConstWallOne : SpatialCast := fun _ _ _ => some ⟨1, ⟨1, 0, 0⟩⟩

/-- Oracle that never reports a hit. -/
def castNoHit : SpatialCast := fun _ _ _ => none

/-- Oracle for a step-up scenario: the initial horizontal cast (vector
    (1,0,0)) hits a wall facing the actor, the upward ceiling probe and
    the elevated forward probe are unobstructed, and the downward landing
    probe (vector (0,-1,0)) finds a flat walkable surface. -/
def castStepScenario : SpatialCast := fun _ v _ =>
  if v.y = 0 then
    (if v.x = 1 then some ⟨1/2, ⟨-1, 0, 0⟩⟩ else none)
  else if 0 < v.y then none
  else some ⟨9/10, ⟨0, 1, 0⟩⟩

/-- Oracle describing a wall that extends far above the step height (a
    ledge taller than step_height): the horizontal cast (vector (1,0,0))
    hits it at distance 1/4, the upward ceiling probe is clear, the
    elevated forward probe (any other horizontal vector) still hits the
    same wall at distance 3/10, and the downward landing probe finds the
    flat walkable ground at distance 1/2. -/
def castTallLedge : SpatialCast := fun _ v _ =>
  if v.y = 0 then
    (if v.x = 1 then some ⟨1/4, ⟨-1, 0, 0⟩⟩ else some ⟨3/10, ⟨-1, 0, 0⟩⟩)
  else if 0 < v.y then none
  else some ⟨1/2, ⟨0, 1, 0⟩⟩

/-- Puppet with skin 1/10, step probe distance 1/10, step height 1/2 and
    a 45-degree slope limit. -/
def puppetTallLedge : Puppet := ⟨1/10, 1/10, 1/2, 45, ⟨1, 0, 0⟩⟩

/-- Puppet with skin 1/10, step probe distance 1, step height 1 and a
    45-degree slope limit. -/
def puppetProbeOne : Puppet := ⟨1/10, 1, 1, 45, ⟨1, 0, 0⟩⟩

/-- Puppet with skin 1/20, step probe distance 1/2, step height 1 and a
    45-degree slope limit. -/
def puppetProbeHalf : Puppet := ⟨1/20, 1/2, 1, 45, ⟨1, 0, 0⟩⟩

/-- Puppet whose slope limit is exactly 90 degrees. -/
def puppetSlope90 : Puppet := ⟨1/40, 1/5, 1/2, 90, Vec3.zero⟩

/-- Grounding oracle that reports a touching (distance zero) hit. -/
def groundCastTouch : GroundCast := fun _ _ => some ⟨0, ⟨0, 1, 0⟩⟩

/-- C10: project_and_scale applied to a vector parallel to the plane
    normal collapses to zero and does not preserve the input's magnitude,
    refuting the unconditional magnitude-preservation claim. -/
theorem project_and_scale_parallel_counterexample :
    (project_and_scale ⟨0, 1, 0⟩ ⟨0, 1, 0⟩).length ≠ (Vec3.mk 0 1 0).length := by
  have hpop : project_onto_plane ⟨0, 1, 0⟩ ⟨0, 1, 0⟩ = Vec3.zero := by
    unfold project_onto_plane
    rw [if_neg (by unfold Vec3.dot f32Epsilon; norm_num)]
    unfold Vec3.dot Vec3.zero
    ext <;> norm_num
  unfold project_and_scale
  rw [hpop]
  have h1 : Vec3.normalizeOrZero Vec3.zero = Vec3.zero := by
    unfold Vec3.normalizeOrZero
    rw [if_pos Vec3.length_zero]
  rw [h1]
  have h2 : Vec3.smul Vec3.zero ((Vec3.mk 0 1 0).length) = Vec3.zero := by
    unfold Vec3.smul Vec3.zero
    ext <;> norm_num
  rw [h2, Vec3.length_zero, Vec3.length_single_y]
  norm_num

/-- C10 (amended): when the plane normal passes the epsilon check and the
    projection of the input onto the contact plane is nonzero,
    project_and_scale returns a vector in the contact plane whose
    magnitude equals the input's magnitude. -/
theorem project_and_scale_in_plane_preserves_length (rhs plane : Vec3)
    (hmag : ¬ plane.dot plane < f32Epsilon)
    (hproj : project_onto_plane rhs plane ≠ Vec3.zero) :
    (project_and_scale rhs plane).dot plane = 0 ∧
      (project_and_scale rhs plane).length = rhs.length := by
  have hs : plane.dot plane ≠ 0 := by
    intro h0
    apply hmag
    rw [h0]
    unfold f32Epsilon
    norm_num
  have hlen : (project_onto_plane rhs plane).length ≠ 0 := by
    intro h0
    exact hproj ((Vec3.length_eq_zero_iff _).mp h0)
  have hdot : (project_onto_plane rhs plane).dot plane = 0 := by
    have hs' : plane.x * plane.x + plane.y * plane.y + plane.z * plane.z ≠ 0 := by
      unfold Vec3.dot at hs
      exact hs
    unfold project_onto_plane
    rw [if_neg hmag]
    unfold Vec3.dot
    field_simp
    ring
  constructor
  · unfold project_and_scale Vec3.normalizeOrZero
    rw [if_neg hlen, Vec3.dot_smul_left, Vec3.dot_smul_left, hdot]
    ring
  · unfold project_and_scale
    rw [Vec3.length_smul, Vec3.length_normalizeOrZero hproj,
        abs_of_nonneg (Vec3.length_nonneg rhs), mul_one]

/-- C10 witness: a concrete horizontal vector against the vertical normal
    keeps its magnitude and lands in the plane. -/
theorem project_and_scale_in_plane_preserves_length_witness :
    (project_and_scale ⟨1, 0, 0⟩ ⟨0, 1, 0⟩).dot ⟨0, 1, 0⟩ = 0 ∧
      (project_and_scale ⟨1, 0, 0⟩ ⟨0, 1, 0⟩).length = (Vec3.mk 1 0 0).length :=
  project_and_scale_in_plane_preserves_length ⟨1, 0, 0⟩ ⟨0, 1, 0⟩
    (by unfold Vec3.dot f32Epsilon; norm_num)
    (by
      unfold project_onto_plane
      rw [if_neg (by unfold Vec3.dot f32Epsilon; norm_num)]
      unfold Vec3.dot Vec3.zero
      intro h
      have hx := congrArg Vec3.x h
      norm_num at hx)

/-- C7: on an actor state whose vertical (gravity) velocity is strongly
    positive while Jumping is inactive, the recomputed gravity multiplier
    is 1 rather than the jump_cutoff factor, because the first branch of
    the source tests target_position.y instead of the gravity velocity. -/
theorem gravity_multiplier_ignores_gravity_velocity :
    gravity_multiplier_update ⟨2, 3/2, 3/20, 3/20⟩ false ⟨Vec3.zero, 5⟩ = 1 ∧
      ((3/2 : ℝ) ≠ 1) := by
  constructor
  · unfold gravity_multiplier_update Vec3.zero
    norm_num
  · norm_num

/-- C8: on a profile whose jump-buffer duration exceeds its coyote-time
    duration, the CoyoteTime timer seeded on a jump grant (a jump_buffer
    timer ticked by coyote_time) is not yet finished, so the seeded timer
    is not past the coyote window. -/
theorem coyote_seed_not_finished :
    (coyote_seed_on_grant ⟨1, 3/2, 1/10, 3/20⟩).finished = false := by
  unfold coyote_seed_on_grant BTimer.new BTimer.tick BTimer.finished
  norm_num

/-- C6: the remaining vector carried into the recursion is computed from
    the unclamped effective travel, so when the sub-margin clamp zeroes
    the effective travel the remaining vector differs from the requested
    vector minus the clamped effective travel: a hit at distance 3/20
    with skin 1/10 gives remaining (19/20,0,0), not (1,0,0). -/
theorem remaining_uses_unclamped_counterexample :
    remainingAfterHit (1/10) ⟨1, 0, 0⟩ ⟨3/20, ⟨0, 1, 0⟩⟩ ≠
      (Vec3.mk 1 0 0).sub (effectiveClamped (1/10) ⟨1, 0, 0⟩ ⟨3/20, ⟨0, 1, 0⟩⟩) := by
  have hnorm : (Vec3.mk 1 0 0).normalizeOrZero = Vec3.mk 1 0 0 :=
    Vec3.normalizeOrZero_single_x one_pos
  have hraw : effectiveRaw (1/10) ⟨1, 0, 0⟩ ⟨3/20, ⟨0, 1, 0⟩⟩ = ⟨1/20, 0, 0⟩ := by
    unfold effectiveRaw
    rw [hnorm]
    unfold Vec3.smul
    ext <;> norm_num
  have hcl : effectiveClamped (1/10) ⟨1, 0, 0⟩ ⟨3/20, ⟨0, 1, 0⟩⟩ = Vec3.zero := by
    unfold effectiveClamped
    rw [hraw, if_pos]
    rw [Vec3.length_single_x, abs_of_nonneg (by norm_num : (0:ℝ) ≤ 1/20)]
    norm_num
  unfold remainingAfterHit
  rw [hraw, hcl]
  intro h
  have hx := congrArg Vec3.x h
  unfold Vec3.sub Vec3.zero at hx
  norm_num at hx

/-- C6 (amended): given a nonnegative hit distance and a nonzero request,
    the clamped effective travel equals the cast direction times
    (hit distance minus skin), zeroed exactly when that travel does not
    exceed the skin margin; and the unclamped effective travel plus the
    remaining vector reconstitute the requested vector (remaining is
    requested minus the unclamped effective travel). -/
theorem effective_travel_decomposition (skin : ℝ) (vel : Vec3) (hit : ShapeHit)
    (hd : 0 ≤ hit.distance) (hv : vel ≠ Vec3.zero) :
    effectiveClamped skin vel hit =
      (if hit.distance - skin ≤ skin then Vec3.zero
       else vel.normalizeOrZero.smul (hit.distance - skin)) ∧
      (remainingAfterHit skin vel hit).add (effectiveRaw skin vel hit) = vel := by
  constructor
  · have hlen : (effectiveRaw skin vel hit).length = |hit.distance - skin| := by
      unfold effectiveRaw
      rw [Vec3.length_smul, Vec3.length_normalizeOrZero hv, mul_one]
    unfold effectiveClamped
    rw [hlen]
    by_cases h : hit.distance - skin ≤ skin
    · rw [if_pos (abs_le.mpr ⟨by linarith, h⟩), if_pos h]
    · rw [if_neg (fun hc => h (le_trans (le_abs_self _) hc)), if_neg h]
      unfold effectiveRaw
      rfl
  · unfold remainingAfterHit Vec3.sub Vec3.add
    ext <;> (simp only []; ring)

/-- C6 witness: a far hit (distance 3, skin 1) leaves the effective
    travel unclamped and the decomposition identity holds. -/
theorem effective_travel_decomposition_witness :
    (effectiveClamped 1 ⟨1, 0, 0⟩ ⟨3, ⟨0, 1, 0⟩⟩ =
      (if (3 : ℝ) - 1 ≤ 1 then Vec3.zero
       else (Vec3.mk 1 0 0).normalizeOrZero.smul ((3 : ℝ) - 1)) ∧
      (remainingAfterHit 1 ⟨1, 0, 0⟩ ⟨3, ⟨0, 1, 0⟩⟩).add
          (effectiveRaw 1 ⟨1, 0, 0⟩ ⟨3, ⟨0, 1, 0⟩⟩) = ⟨1, 0, 0⟩) :=
  effective_travel_decomposition 1 ⟨1, 0, 0⟩ ⟨3, ⟨0, 1, 0⟩⟩ (by norm_num)
    (by
      intro h
      have hx := congrArg Vec3.x h
      unfold Vec3.zero at hx
      norm_num at hx)

/-- C9: the grounding pass marks the actor Grounded exactly when the
    downward cast over distance skin_thickness * 2 reports a hit; a hit
    at distance exactly zero nudges the translation up by skin_thickness,
    and in every other case the translation is unchanged. -/
theorem check_if_grounded_spec (cast : GroundCast) (skin : ℝ) (t : Vec3) :
    ((check_if_grounded cast skin t).2 = true ↔ (cast t (skin * 2)).isSome = true) ∧
      (∀ hit, cast t (skin * 2) = some hit →
        (hit.distance = 0 →
          (check_if_grounded cast skin t).1 = ⟨t.x, t.y + skin, t.z⟩) ∧
        (hit.distance ≠ 0 → (check_if_grounded cast skin t).1 = t)) ∧
      (cast t (skin * 2) = none → (check_if_grounded cast skin t).1 = t) := by
  unfold check_if_grounded
  rcases hc : cast t (skin * 2) with _ | hit
  · simp
  · refine ⟨by simp, ?_, by simp⟩
    rintro hit' heq
    injection heq with heq'
    subst heq'
    constructor
    · intro h0
      simp [h0]
    · intro h0
      simp [h0]

/-- C9 witness: an oracle reporting a touching hit (distance zero) marks
    the actor grounded and nudges it up by the skin thickness. -/
lemma optionIsSome_map {α β : Type} (f : α → β) (x : Option α) :
    (Option.map f x).isSome = x.isSome := by
  cases x <;> rfl

lemma cs_zero_vel {cast : SpatialCast} {p : Puppet} {g gp : Bool} {pos vel : Vec3}
    {depth : ℕ} (h : vel.length = 0) :
    collide_and_slide cast p g gp pos vel depth = some Vec3.zero := by
  rw [collide_and_slide]
  rw [if_pos h]

lemma cs_depth_cap {cast : SpatialCast} {p : Puppet} {g gp : Bool} {pos vel : Vec3}
    {depth : ℕ} (h : MAX_BOUNCES ≤ depth) :
    collide_and_slide cast p g gp pos vel depth = some Vec3.zero := by
  rw [collide_and_slide]
  by_cases hv : vel.length = 0
  · rw [if_pos hv]
  · rw [if_neg hv, dif_pos h]

lemma cs_isSome_aux (cast : SpatialCast) (p : Puppet) :
    ∀ (n : ℕ) (g gp : Bool) (pos vel : Vec3) (depth : ℕ),
      (g = false ∨ gp = true) → MAX_BOUNCES - depth ≤ n →
      (collide_and_slide cast p g gp pos vel depth).isSome = true := by
  intro n
  induction n with
  | zero =>
    intro g gp pos vel depth hg hn
    rw [cs_depth_cap (by omega)]
    rfl
  | succ n ih =>
    intro g gp pos vel depth hg hn
    by_cases hv : vel.length = 0
    · rw [cs_zero_vel hv]; rfl
    by_cases hd : MAX_BOUNCES ≤ depth
    · rw [cs_depth_cap hd]; rfl
    have hrec : MAX_BOUNCES - (depth + 1) ≤ n := by omega
    rw [collide_and_slide]
    rw [if_neg hv, dif_neg hd]
    rcases hc : cast pos vel p.skin_thickness with _ | hit
    · rfl
    · dsimp only
      by_cases hslope : angleDeg Vec3.Yunit hit.normal1 ≤ p.max_slope_angle
      · rw [if_pos hslope]
        rcases gp with _ | _
        · simp only [Bool.false_eq_true, if_false]
          rw [optionIsSome_map]
          exact ih g false _ _ (depth + 1) hg hrec
        · rfl
      · rw [if_neg hslope]
        have hgb : (g && !gp) = false := by
          rcases hg with h | h
          · rw [h]; rfl
          · rw [h]; simp
        rw [hgb]
        simp only [Bool.false_eq_true, if_false]
        rw [optionIsSome_map]
        exact ih g gp _ _ (depth + 1) hg hrec

/-- C2 (amended): collide_and_slide returns the zero vector whenever the
    requested vector has zero length or the recursion depth has reached
    MAX_BOUNCES = 5 (hence the recursion is bounded by 5 levels and every
    call terminates: the definition recurses on MAX_BOUNCES - depth), and
    any call that cannot enter the grounded step-up branch (airborne or
    the gravity pass) returns a value for every sequence of shape-cast
    answers, including oracles that report a hit on every cast. -/
theorem collide_and_slide_base_cases_and_totality :
    ∀ (cast : SpatialCast) (p : Puppet) (g gp : Bool) (pos vel : Vec3) (depth : ℕ),
      (vel.length = 0 → collide_and_slide cast p g gp pos vel depth = some Vec3.zero) ∧
      (MAX_BOUNCES ≤ depth →
        collide_and_slide cast p g gp pos vel depth = some Vec3.zero) ∧
      ((g = false ∨ gp = true) →
        (collide_and_slide cast p g gp pos vel depth).isSome = true) :=
  fun cast p g gp pos vel depth =>
    ⟨fun h => cs_zero_vel h, fun h => cs_depth_cap h,
     fun hg => cs_isSome_aux cast p (MAX_BOUNCES - depth) g gp pos vel depth hg le_rfl⟩

/-- C2 witness: the zero request returns zero displacement, and an
    airborne call against an oracle hitting on every cast still returns a
    value. -/
theorem collide_and_slide_base_cases_and_totality_witness :
    collide_and_slide castNoHit puppetProbeOne false false Vec3.zero Vec3.zero 0 =
        some Vec3.zero ∧
      (collide_and_slide castConstWallHalf puppetProbeOne false false Vec3.zero
          ⟨1, 0, 0⟩ 0).isSome = true :=
  ⟨(collide_and_slide_base_cases_and_totality castNoHit puppetProbeOne false false
      Vec3.zero Vec3.zero 0).1 Vec3.length_zero,
   (collide_and_slide_base_cases_and_totality castConstWallHalf puppetProbeOne false
      false Vec3.zero ⟨1, 0, 0⟩ 0).2.2 (Or.inl rfl)⟩

lemma ne_zero_length {v : Vec3} (h : v ≠ Vec3.zero) : ¬ v.length = 0 :=
  fun h0 => h ((Vec3.length_eq_zero_iff v).mp h0)

lemma cs_hit_eq (cast : SpatialCast) (p : Puppet) {g gp : Bool} {pos vel : Vec3}
    {depth : ℕ} {hit : ShapeHit}
    (hv : ¬ vel.length = 0) (hd : ¬ MAX_BOUNCES ≤ depth)
    (hc : cast pos vel p.skin_thickness = some hit) :
    collide_and_slide cast p g gp pos vel depth =
      if angleDeg Vec3.Yunit hit.normal1 ≤ p.max_slope_angle then
        if gp then some (effectiveClamped p.skin_thickness vel hit)
        else
          Option.map (fun r => (effectiveClamped p.skin_thickness vel hit).add r)
            (collide_and_slide cast p g gp
              (pos.add (effectiveClamped p.skin_thickness vel hit))
              (project_and_scale (remainingAfterHit p.skin_thickness vel hit) hit.normal1)
              (depth + 1))
      else
        if g && !gp then
          match step_check cast p pos vel hit with
          | .panicked => none
          | .stepped r => some r
          | .noStep =>
            Option.map (fun r => (effectiveClamped p.skin_thickness vel hit).add r)
              (collide_and_slide cast p g gp
                (pos.add (effectiveClamped p.skin_thickness vel hit))
                ((project_and_scale
                    ⟨(remainingAfterHit p.skin_thickness vel hit).x, 0,
                      (remainingAfterHit p.skin_thickness vel hit).z⟩
                    ⟨hit.normal1.x, 0, hit.normal1.z⟩).smul
                  (wallScale (initialVel p gp) hit))
                (depth + 1))
        else
          Option.map (fun r => (effectiveClamped p.skin_thickness vel hit).add r)
            (collide_and_slide cast p g gp
              (pos.add (effectiveClamped p.skin_thickness vel hit))
              ((project_and_scale (remainingAfterHit p.skin_thickness vel hit)
                  hit.normal1).smul (wallScale (initialVel p gp) hit))
              (depth + 1)) := by
  conv_lhs => rw [collide_and_slide]
  rw [if_neg hv, dif_neg hd, hc]

/-- C4: a hit whose normal makes an angle of at most max_slope_angle with
    world-up is classified walkable, and in the gravity pass the solver
    returns the (clamped) effective travel immediately; a strictly larger
    angle is classified as a wall and control enters the step-check /
    wall-slide branch. -/
theorem collide_and_slide_slope_classification
    (cast : SpatialCast) (p : Puppet) (g gp : Bool) (pos vel : Vec3) (depth : ℕ)
    (hit : ShapeHit)
    (hv : ¬ vel.length = 0) (hd : ¬ MAX_BOUNCES ≤ depth)
    (hc : cast pos vel p.skin_thickness = some hit) :
    (angleDeg Vec3.Yunit hit.normal1 ≤ p.max_slope_angle → gp = true →
      collide_and_slide cast p g gp pos vel depth =
        some (effectiveClamped p.skin_thickness vel hit)) ∧
    (¬ angleDeg Vec3.Yunit hit.normal1 ≤ p.max_slope_angle →
      collide_and_slide cast p g gp pos vel depth =
        if g && !gp then
          match step_check cast p pos vel hit with
          | .panicked => none
          | .stepped r => some r
          | .noStep =>
            Option.map (fun r => (effectiveClamped p.skin_thickness vel hit).add r)
              (collide_and_slide cast p g gp
                (pos.add (effectiveClamped p.skin_thickness vel hit))
                ((project_and_scale
                    ⟨(remainingAfterHit p.skin_thickness vel hit).x, 0,
                      (remainingAfterHit p.skin_thickness vel hit).z⟩
                    ⟨hit.normal1.x, 0, hit.normal1.z⟩).smul
                  (wallScale (initialVel p gp) hit))
                (depth + 1))
        else
          Option.map (fun r => (effectiveClamped p.skin_thickness vel hit).add r)
            (collide_and_slide cast p g gp
              (pos.add (effectiveClamped p.skin_thickness vel hit))
              ((project_and_scale (remainingAfterHit p.skin_thickness vel hit)
                  hit.normal1).smul (wallScale (initialVel p gp) hit))
              (depth + 1))) := by
  constructor
  · intro h1 h2
    subst h2
    rw [cs_hit_eq cast p hv hd hc, if_pos h1, if_pos rfl]
  · intro h1
    rw [cs_hit_eq cast p hv hd hc, if_neg h1]

/-- C4 witness: a gravity-pass hit whose normal is at exactly the slope
    limit (90 degrees against a vertical wall limit of 90) is walkable
    and the solver returns the clamped effective travel. -/
theorem collide_and_slide_slope_classification_witness :
    collide_and_slide castConstWallOne puppetSlope90 false true Vec3.zero ⟨1, 0, 0⟩ 0 =
      some (effectiveClamped puppetSlope90.skin_thickness ⟨1, 0, 0⟩ ⟨1, ⟨1, 0, 0⟩⟩) :=
  (collide_and_slide_slope_classification castConstWallOne puppetSlope90 false true
      Vec3.zero ⟨1, 0, 0⟩ 0 ⟨1, ⟨1, 0, 0⟩⟩
      (ne_zero_length (by
        intro h
        have hx := congrArg Vec3.x h
        unfold Vec3.zero at hx
        norm_num at hx))
      (by simp [MAX_BOUNCES]) rfl).1
    (by
      rw [angleDeg_eq_ninety (by unfold Vec3.Yunit Vec3.dot; norm_num)]
      norm_num [puppetSlope90])
    rfl

/-- C5 counterexample: an obstacle extending far above step_height (the
    elevated forward probe still hits the same wall, so the ledge is
    taller than the step height of 1/2) does not fall back to
    wall-sliding: the downward landing cast finds the walkable ground
    behind the shortened forward travel, the probe accepts the step, and
    the solver returns the elevated displacement (1/5, 1/10, 0) directly
    instead of the wall-slide recursion. -/
theorem tall_ledge_steps_instead_of_sliding :
    step_check castTallLedge puppetTallLedge Vec3.zero ⟨1, 0, 0⟩ ⟨1/4, ⟨-1, 0, 0⟩⟩ =
        .stepped ⟨1/5, 1/10, 0⟩ ∧
      collide_and_slide castTallLedge puppetTallLedge true false Vec3.zero
        ⟨1, 0, 0⟩ 0 = some ⟨1/5, 1/10, 0⟩ := by
  have hstep0 : stepVel0 puppetTallLedge ⟨1, 0, 0⟩ ⟨1/4, ⟨-1, 0, 0⟩⟩ =
      Vec3.mk (11/10) 0 0 := by
    unfold stepVel0 puppetTallLedge Vec3.add Vec3.neg Vec3.smul
    ext <;> norm_num
  have hh1 : stepHeight1 castTallLedge puppetTallLedge Vec3.zero = 1/2 := by
    unfold stepHeight1
    have hcu : castTallLedge Vec3.zero ⟨0, puppetTallLedge.step_height, 0⟩
        puppetTallLedge.skin_thickness = none := by
      unfold castTallLedge
      rw [if_neg (by norm_num [puppetTallLedge]), if_pos (by norm_num [puppetTallLedge])]
    rw [hcu]
    rfl
  have hsv1 : stepVel1 castTallLedge puppetTallLedge Vec3.zero ⟨1, 0, 0⟩
      ⟨1/4, ⟨-1, 0, 0⟩⟩ = Vec3.mk (1/5) 0 0 := by
    unfold stepVel1
    rw [hh1, hstep0]
    have hcf : castTallLedge (Vec3.zero.add ⟨0, 1/2, 0⟩) (Vec3.mk (11/10) 0 0)
        puppetTallLedge.skin_thickness = some ⟨3/10, ⟨-1, 0, 0⟩⟩ := by
      unfold castTallLedge
      rw [if_pos rfl, if_neg (by norm_num)]
    rw [hcf]
    dsimp only
    rw [Vec3.normalizeOrZero_single_x one_pos]
    unfold Vec3.smul
    ext <;> norm_num [puppetTallLedge]
  have hsv2 : stepVel2 castTallLedge puppetTallLedge Vec3.zero ⟨1, 0, 0⟩
      ⟨1/4, ⟨-1, 0, 0⟩⟩ = Vec3.mk (1/5) 0 0 := by
    unfold stepVel2
    rw [hsv1, Vec3.length_single_x]
    rw [if_neg (by
      rw [abs_of_pos (by norm_num : (0:ℝ) < 1/5)]
      norm_num [puppetTallLedge])]
  have hdown : stepDownCast castTallLedge puppetTallLedge Vec3.zero ⟨1, 0, 0⟩
      ⟨1/4, ⟨-1, 0, 0⟩⟩ = some ⟨1/2, ⟨0, 1, 0⟩⟩ := by
    unfold stepDownCast
    rw [hsv2, hh1]
    unfold castTallLedge
    rw [if_neg (by norm_num), if_neg (by norm_num)]
  have hsc : step_check castTallLedge puppetTallLedge Vec3.zero ⟨1, 0, 0⟩
      ⟨1/4, ⟨-1, 0, 0⟩⟩ = .stepped ⟨1/5, 1/10, 0⟩ := by
    unfold step_check
    rw [if_neg (by
          rw [hstep0, Vec3.length_single_x]
          intro h
          rw [abs_eq_zero] at h
          norm_num at h),
        hdown]
    dsimp only
    rw [if_pos (by
          rw [angleDeg_Y_up]
          norm_num [puppetTallLedge])]
    rw [hsv2, hh1]
    congr 1
    ext <;> norm_num [Vec3.add, puppetTallLedge]
  refine ⟨hsc, ?_⟩
  rw [cs_hit_eq castTallLedge puppetTallLedge
        (ne_zero_length (by
          intro h
          have hx := congrArg Vec3.x h
          unfold Vec3.zero at hx
          norm_num at hx))
        (by simp [MAX_BOUNCES])
        (by
          unfold castTallLedge
          rw [if_pos rfl, if_pos rfl]),
      if_neg (by
        rw [angleDeg_eq_ninety (by unfold Vec3.Yunit Vec3.dot; norm_num)]
        norm_num [puppetTallLedge]),
      if_pos (show (true && !false) = true from rfl), hsc]

/-- C5 (amended): on a grounded horizontal-pass wall hit, if the
    three-cast step probe's downward landing cast finds a surface within
    the slope limit the solver returns (forward_travel.x, 0,
    forward_travel.z) plus up times the adjusted step height directly,
    with no further recursion, regardless of how far the obstacle
    extends above step_height; the solver falls back to the flattened
    wall-slide recursion exactly when the landing cast finds a steeper
    surface, or no surface. -/
theorem collide_and_slide_step_up
    (cast : SpatialCast) (p : Puppet) (g gp : Bool) (pos vel : Vec3) (depth : ℕ)
    (hit : ShapeHit)
    (hv : ¬ vel.length = 0) (hd : ¬ MAX_BOUNCES ≤ depth)
    (hc : cast pos vel p.skin_thickness = some hit)
    (hwall : ¬ angleDeg Vec3.Yunit hit.normal1 ≤ p.max_slope_angle)
    (hg : g = true) (hgp : gp = false)
    (hsv : ¬ (stepVel0 p vel hit).length = 0) :
    (∀ sh, stepDownCast cast p pos vel hit = some sh →
      angleDeg Vec3.Yunit sh.normal1 ≤ p.max_slope_angle →
      collide_and_slide cast p g gp pos vel depth =
        some (Vec3.add
          ⟨(stepVel2 cast p pos vel hit).x, 0, (stepVel2 cast p pos vel hit).z⟩
          ⟨0, stepHeight1 cast p pos - (sh.distance - p.skin_thickness), 0⟩)) ∧
    (∀ sh, stepDownCast cast p pos vel hit = some sh →
      ¬ angleDeg Vec3.Yunit sh.normal1 ≤ p.max_slope_angle →
      collide_and_slide cast p g gp pos vel depth =
        Option.map (fun r => (effectiveClamped p.skin_thickness vel hit).add r)
          (collide_and_slide cast p g gp
            (pos.add (effectiveClamped p.skin_thickness vel hit))
            ((project_and_scale
                ⟨(remainingAfterHit p.skin_thickness vel hit).x, 0,
                  (remainingAfterHit p.skin_thickness vel hit).z⟩
                ⟨hit.normal1.x, 0, hit.normal1.z⟩).smul
              (wallScale (initialVel p gp) hit))
            (depth + 1))) ∧
    (stepDownCast cast p pos vel hit = none →
      collide_and_slide cast p g gp pos vel depth =
        Option.map (fun r => (effectiveClamped p.skin_thickness vel hit).add r)
          (collide_and_slide cast p g gp
            (pos.add (effectiveClamped p.skin_thickness vel hit))
            ((project_and_scale
                ⟨(remainingAfterHit p.skin_thickness vel hit).x, 0,
                  (remainingAfterHit p.skin_thickness vel hit).z⟩
                ⟨hit.normal1.x, 0, hit.normal1.z⟩).smul
              (wallScale (initialVel p gp) hit))
            (depth + 1))) := by
  subst hg
  subst hgp
  refine ⟨?_, ?_, ?_⟩
  · intro sh hdc hangle
    have hsc : step_check cast p pos vel hit =
        .stepped (Vec3.add
          ⟨(stepVel2 cast p pos vel hit).x, 0, (stepVel2 cast p pos vel hit).z⟩
          ⟨0, stepHeight1 cast p pos - (sh.distance - p.skin_thickness), 0⟩) := by
      unfold step_check
      rw [if_neg hsv, hdc]
      dsimp only
      rw [if_pos hangle]
    rw [cs_hit_eq cast p hv hd hc, if_neg hwall,
        if_pos (show (true && !false) = true from rfl), hsc]
  · intro sh hdc hangle
    have hsc : step_check cast p pos vel hit = .noStep := by
      unfold step_check
      rw [if_neg hsv, hdc]
      dsimp only
      rw [if_neg hangle]
    rw [cs_hit_eq cast p hv hd hc, if_neg hwall,
        if_pos (show (true && !false) = true from rfl), hsc]
  · intro hdc
    have hsc : step_check cast p pos vel hit = .noStep := by
      unfold step_check
      rw [if_neg hsv, hdc]
    rw [cs_hit_eq cast p hv hd hc, if_neg hwall,
        if_pos (show (true && !false) = true from rfl), hsc]

/-- C5 witness: on a concrete grounded wall hit, the probe climbs: the
    ceiling cast is clear, the forward cast is clear, and the landing
    cast finds a flat surface at distance 9/10, so the solver returns
    (2, 0, 0) plus up times the adjusted step height 1 - (9/10 - 1/10). -/
theorem collide_and_slide_step_up_witness :
    collide_and_slide castStepScenario puppetProbeOne true false Vec3.zero ⟨1, 0, 0⟩ 0 =
      some (Vec3.add
        ⟨(stepVel2 castStepScenario puppetProbeOne Vec3.zero ⟨1, 0, 0⟩
            ⟨1/2, ⟨-1, 0, 0⟩⟩).x, 0,
          (stepVel2 castStepScenario puppetProbeOne Vec3.zero ⟨1, 0, 0⟩
            ⟨1/2, ⟨-1, 0, 0⟩⟩).z⟩
        ⟨0, stepHeight1 castStepScenario puppetProbeOne Vec3.zero -
            ((9:ℝ)/10 - puppetProbeOne.skin_thickness), 0⟩) := by
  have hstep0 : stepVel0 puppetProbeOne ⟨1, 0, 0⟩ ⟨1/2, ⟨-1, 0, 0⟩⟩ =
      Vec3.mk 2 0 0 := by
    unfold stepVel0 puppetProbeOne Vec3.add Vec3.neg Vec3.smul
    ext <;> norm_num
  have hh1 : stepHeight1 castStepScenario puppetProbeOne Vec3.zero = 1 := by
    unfold stepHeight1
    have hcu : castStepScenario Vec3.zero ⟨0, puppetProbeOne.step_height, 0⟩
        puppetProbeOne.skin_thickness = none := by
      unfold castStepScenario
      rw [if_neg (by norm_num [puppetProbeOne]), if_pos (by norm_num [puppetProbeOne])]
    rw [hcu]
    rfl
  have hsv1 : stepVel1 castStepScenario puppetProbeOne Vec3.zero ⟨1, 0, 0⟩
      ⟨1/2, ⟨-1, 0, 0⟩⟩ = Vec3.mk 2 0 0 := by
    unfold stepVel1
    rw [hh1, hstep0]
    have hcf : castStepScenario (Vec3.zero.add ⟨0, 1, 0⟩) (Vec3.mk 2 0 0)
        puppetProbeOne.skin_thickness = none := by
      unfold castStepScenario
      rw [if_pos rfl, if_neg (by norm_num)]
    rw [hcf]
  have hsv2 : stepVel2 castStepScenario puppetProbeOne Vec3.zero ⟨1, 0, 0⟩
      ⟨1/2, ⟨-1, 0, 0⟩⟩ = Vec3.mk 2 0 0 := by
    unfold stepVel2
    rw [hsv1, Vec3.length_single_x]
    rw [if_neg (by rw [abs_two]; norm_num [puppetProbeOne])]
  have hdown : stepDownCast castStepScenario puppetProbeOne Vec3.zero ⟨1, 0, 0⟩
      ⟨1/2, ⟨-1, 0, 0⟩⟩ = some ⟨9/10, ⟨0, 1, 0⟩⟩ := by
    unfold stepDownCast
    rw [hsv2, hh1]
    unfold castStepScenario
    rw [if_neg (by norm_num), if_neg (by norm_num)]
  exact
    (collide_and_slide_step_up castStepScenario puppetProbeOne true false Vec3.zero
        ⟨1, 0, 0⟩ 0 ⟨1/2, ⟨-1, 0, 0⟩⟩
        (ne_zero_length (by
          intro h
          have hx := congrArg Vec3.x h
          unfold Vec3.zero at hx
          norm_num at hx))
        (by simp [MAX_BOUNCES])
        (by
          unfold castStepScenario
          rw [if_pos rfl, if_pos rfl])
        (by
          rw [angleDeg_eq_ninety (by unfold Vec3.Yunit Vec3.dot; norm_num)]
          norm_num [puppetProbeOne])
        rfl rfl
        (by
          rw [hstep0, Vec3.length_single_x, abs_two]
          norm_num)).1
      ⟨9/10, ⟨0, 1, 0⟩⟩ hdown
      (by
        rw [angleDeg_Y_up]
        norm_num [puppetProbeOne])

/-- C2 counterexample: against an oracle that reports a hit on every
    cast, a grounded horizontal call whose step probe vector degenerates
    to zero makes the solver panic (the Dir3 unwrap on the zero forward
    probe), refuting the no-exception part of the claim. -/
theorem collide_and_slide_allhit_panics :
    collide_and_slide castConstWallHalf puppetProbeOne true false Vec3.zero
      ⟨1, 0, 0⟩ 0 = none := by
  have hstep0 : stepVel0 puppetProbeOne ⟨1, 0, 0⟩ ⟨1/2, ⟨1, 0, 0⟩⟩ = Vec3.zero := by
    unfold stepVel0 puppetProbeOne Vec3.add Vec3.neg Vec3.smul Vec3.zero
    ext <;> norm_num
  have hsc : step_check castConstWallHalf puppetProbeOne Vec3.zero ⟨1, 0, 0⟩
      ⟨1/2, ⟨1, 0, 0⟩⟩ = .panicked := by
    unfold step_check
    rw [hstep0, if_pos Vec3.length_zero]
  rw [cs_hit_eq castConstWallHalf puppetProbeOne
        (ne_zero_length (by
          intro h
          have hx := congrArg Vec3.x h
          unfold Vec3.zero at hx
          norm_num at hx))
        (by simp [MAX_BOUNCES]) rfl,
      if_neg (by
        rw [angleDeg_eq_ninety (by unfold Vec3.Yunit Vec3.dot; norm_num)]
        norm_num [puppetProbeOne]),
      if_pos (show (true && !false) = true from rfl), hsc]

/-- C3: a grounded horizontal-pass wall hit whose forward step probe
    vector is zero (the requested vector equals the wall normal scaled by
    step_move_distance) drives Dir3::new(Vec3::ZERO).unwrap() to panic,
    so collide_and_slide does not complete: the zero normalization
    candidate is not resolved to the zero vector. -/
theorem collide_and_slide_zero_probe_panics :
    collide_and_slide castConstWallQuarter puppetProbeHalf true false Vec3.zero
      ⟨1/2, 0, 0⟩ 0 = none := by
  have hstep0 : stepVel0 puppetProbeHalf ⟨1/2, 0, 0⟩ ⟨1/4, ⟨1, 0, 0⟩⟩ = Vec3.zero := by
    unfold stepVel0 puppetProbeHalf Vec3.add Vec3.neg Vec3.smul Vec3.zero
    ext <;> norm_num
  have hsc : step_check castConstWallQuarter puppetProbeHalf Vec3.zero ⟨1/2, 0, 0⟩
      ⟨1/4, ⟨1, 0, 0⟩⟩ = .panicked := by
    unfold step_check
    rw [hstep0, if_pos Vec3.length_zero]
  rw [cs_hit_eq castConstWallQuarter puppetProbeHalf
        (ne_zero_length (by
          intro h
          have hx := congrArg Vec3.x h
          unfold Vec3.zero at hx
          norm_num at hx))
        (by simp [MAX_BOUNCES]) rfl,
      if_neg (by
        rw [angleDeg_eq_ninety (by unfold Vec3.Yunit Vec3.dot; norm_num)]
        norm_num [puppetProbeHalf]),
      if_pos (show (true && !false) = true from rfl), hsc]

theorem check_if_grounded_spec_witness :
    (check_if_grounded groundCastTouch (1/40) ⟨0, 0, 0⟩).2 = true ∧
      (check_if_grounded groundCastTouch (1/40) ⟨0, 0, 0⟩).1 = ⟨0, 0 + 1/40, 0⟩ :=
  ⟨(check_if_grounded_spec groundCastTouch (1/40) ⟨0, 0, 0⟩).1.mpr rfl,
   ((check_if_grounded_spec groundCastTouch (1/40) ⟨0, 0, 0⟩).2.1 ⟨0, ⟨0, 1, 0⟩⟩ rfl).1 rfl⟩

